import Mathlib

/-!
Shallow embedding of the chain-specification resolver and the PBS error
taxonomy of commit-boost-client (crates/common/src/types.rs and
crates/common/src/pbs/error.rs).

Machine integers (u64, u32, u8) are embedded as Nat with explicit `% 2 ^ w`
at the operations where overflow matters; byte strings are `List Nat`.
-/

/-- Embeds the Rust enum `KnownChain` (types.rs): the closed set of named
networks holding the authoritative constant tables. -/
inductive KnownChain
  | Mainnet
  | Holesky
  | Helder
  deriving DecidableEq, Repr

/-- Embeds the Rust enum `Chain` (types.rs): three named variants plus an
open `Custom` variant.  The Rust field `genesis_fork_version: [u8; 4]` is a
`List Nat`; `Chain.wf` below records the length-4 invariant of `[u8; 4]`. -/
inductive Chain
  | Mainnet
  | Holesky
  | Helder
  | Custom (genesis_time_secs : Nat) (slot_time_secs : Nat)
      (genesis_fork_version : List Nat)
  deriving DecidableEq, Repr

/-- Invariant carried by the Rust type `[u8; 4]` of `Chain::Custom`'s
`genesis_fork_version` field: exactly 4 bytes. -/
def Chain.wf : Chain → Prop
  | .Custom _ _ fv => fv.length = 4
  | _ => True

instance : DecidablePred Chain.wf := by
  intro c
  cases c <;> simp [Chain.wf] <;> infer_instance

/-- Embeds `KnownChain::builder_domain` (types.rs lines 94-109): the literal
32-byte constant table. -/
def KnownChain.builder_domain : KnownChain → List Nat
  | .Mainnet =>
      [0, 0, 0, 1, 245, 165, 253, 66, 209, 106, 32, 48, 39, 152, 239, 110,
       211, 9, 151, 155, 67, 0, 61, 35, 32, 217, 240, 232, 234, 152, 49, 169]
  | .Holesky =>
      [0, 0, 0, 1, 91, 131, 162, 55, 89, 197, 96, 178, 208, 198, 69, 118,
       225, 220, 252, 52, 234, 148, 196, 152, 143, 62, 13, 159, 119, 240, 83, 135]
  | .Helder =>
      [0, 0, 0, 1, 148, 196, 26, 244, 132, 255, 247, 150, 73, 105, 224, 189,
       217, 34, 248, 45, 255, 15, 75, 232, 122, 96, 208, 102, 76, 201, 209, 255]

/-- Embeds `KnownChain::genesis_fork_version` (types.rs lines 111-117). -/
def KnownChain.genesis_fork_version : KnownChain → List Nat
  | .Mainnet => [0, 0, 0, 0]
  | .Holesky => [1, 1, 112, 0]
  | .Helder => [16, 0, 0, 0]

/-- Embeds `KnownChain::genesis_time_sec` (types.rs lines 119-125). -/
def KnownChain.genesis_time_sec : KnownChain → Nat
  | .Mainnet => 1606824023
  | .Holesky => 1695902400
  | .Helder => 1718967660

/-- Embeds `KnownChain::slot_time_sec` (types.rs lines 127-131). -/
def KnownChain.slot_time_sec : KnownChain → Nat
  | _ => 12

/-- Embeds `impl From<KnownChain> for Chain` (types.rs lines 134-142). -/
def Chain.ofKnown : KnownChain → Chain
  | .Mainnet => .Mainnet
  | .Holesky => .Holesky
  | .Helder => .Helder

/-- Embeds `Chain::genesis_fork_version` (types.rs lines 54-61). -/
def Chain.genesis_fork_version : Chain → List Nat
  | .Mainnet => KnownChain.Mainnet.genesis_fork_version
  | .Holesky => KnownChain.Holesky.genesis_fork_version
  | .Helder => KnownChain.Helder.genesis_fork_version
  | .Custom _ _ fv => fv

/-- Embeds `Chain::genesis_time_sec` (types.rs lines 63-70). -/
def Chain.genesis_time_sec : Chain → Nat
  | .Mainnet => KnownChain.Mainnet.genesis_time_sec
  | .Holesky => KnownChain.Holesky.genesis_time_sec
  | .Helder => KnownChain.Helder.genesis_time_sec
  | .Custom t _ _ => t

/-- Embeds `Chain::slot_time_sec` (types.rs lines 72-79). -/
def Chain.slot_time_sec : Chain → Nat
  | .Mainnet => KnownChain.Mainnet.slot_time_sec
  | .Holesky => KnownChain.Holesky.slot_time_sec
  | .Helder => KnownChain.Helder.slot_time_sec
  | .Custom _ s _ => s

/-! SHA-256 over byte lists, needed to model the consensus-layer domain
derivation (`compute_domain` lives in crates/common/src/signature.rs, which
is outside the embedded sources; the spec describes it in §3). -/

/-- Right-rotation of a 32-bit word. -/
def rotr32 (n x : Nat) : Nat := (x >>> n ||| x <<< (32 - n)) % 4294967296

/-- Bitwise choice function of SHA-256. -/
def sha2Ch (x y z : Nat) : Nat := (x &&& y) ^^^ ((x ^^^ 4294967295) &&& z)

/-- Bitwise majority function of SHA-256. -/
def sha2Maj (x y z : Nat) : Nat := (x &&& y) ^^^ (x &&& z) ^^^ (y &&& z)

/-- Big sigma-0 of SHA-256. -/
def sha2S0 (x : Nat) : Nat := rotr32 2 x ^^^ rotr32 13 x ^^^ rotr32 22 x

/-- Big sigma-1 of SHA-256. -/
def sha2S1 (x : Nat) : Nat := rotr32 6 x ^^^ rotr32 11 x ^^^ rotr32 25 x

/-- Small sigma-0 of SHA-256. -/
def sha2s0 (x : Nat) : Nat := rotr32 7 x ^^^ rotr32 18 x ^^^ (x >>> 3)

/-- Small sigma-1 of SHA-256. -/
def sha2s1 (x : Nat) : Nat := rotr32 17 x ^^^ rotr32 19 x ^^^ (x >>> 10)

/-- Round constants of SHA-256. -/
def sha2K : List Nat :=
  [1116352408, 1899447441, 3049323471, 3921009573, 961987163,
   1508970993, 2453635748, 2870763221, 3624381080, 310598401,
   607225278, 1426881987, 1925078388, 2162078206, 2614888103,
   3248222580, 3835390401, 4022224774, 264347078, 604807628,
   770255983, 1249150122, 1555081692, 1996064986, 2554220882,
   2821834349, 2952996808, 3210313671, 3336571891, 3584528711,
   113926993, 338241895, 666307205, 773529912, 1294757372,
   1396182291, 1695183700, 1986661051, 2177026350, 2456956037,
   2730485921, 2820302411, 3259730800, 3345764771, 3516065817,
   3600352804, 4094571909, 275423344, 430227734, 506948616,
   659060556, 883997877, 958139571, 1322822218, 1537002063,
   1747873779, 1955562222, 2024104815, 2227730452, 2361852424,
   2428436474, 2756734187, 3204031479, 3329325298]

/-- Initial hash state of SHA-256. -/
def sha2H0 : List Nat :=
  [1779033703, 3144134277, 1013904242, 2773480762,
   1359893119, 2600822924, 528734635, 1541459225]

/-- Pack a byte list into big-endian 32-bit words, 4 bytes at a time. -/
def bytesToWords : List Nat → List Nat
  | b0 :: b1 :: b2 :: b3 :: rest =>
      (((b0 * 256 + b1) * 256 + b2) * 256 + b3) :: bytesToWords rest
  | _ => []

/-- Big-endian 4-byte encoding of a 32-bit word (also embeds Rust's
`u32::to_be_bytes`, used by `SpecFile::to_chain`). -/
def u32BeBytes (n : Nat) : List Nat :=
  [n >>> 24 % 256, n >>> 16 % 256, n >>> 8 % 256, n % 256]

/-- Big-endian 8-byte encoding of a 64-bit value. -/
def u64BeBytes (n : Nat) : List Nat :=
  [n >>> 56 % 256, n >>> 48 % 256, n >>> 40 % 256, n >>> 32 % 256,
   n >>> 24 % 256, n >>> 16 % 256, n >>> 8 % 256, n % 256]

/-- Extend the 16-word schedule by one more word. -/
def sha2StepW (w : List Nat) : List Nat :=
  let t := w.length
  w ++ [(sha2s1 (w.getD (t - 2) 0) + w.getD (t - 7) 0 +
         sha2s0 (w.getD (t - 15) 0) + w.getD (t - 16) 0) % 4294967296]

/-- One compression round of SHA-256 on the 8-word state. -/
def sha2Round (s : List Nat) (kw : Nat × Nat) : List Nat :=
  match s with
  | [a, b, c, d, e, f, g, h] =>
      let t1 := (h + sha2S1 e + sha2Ch e f g + kw.1 + kw.2) % 4294967296
      let t2 := (sha2S0 a + sha2Maj a b c) % 4294967296
      [(t1 + t2) % 4294967296, a, b, c, (d + t1) % 4294967296, e, f, g]
  | other => other

/-- Compress one 64-byte block into the running 8-word state. -/
def sha2Block (h : List Nat) (block : List Nat) : List Nat :=
  let w := sha2StepW^[48] (bytesToWords block)
  let s := List.foldl sha2Round h (sha2K.zip w)
  (h.zip s).map fun p => (p.1 + p.2) % 4294967296

/-- SHA-256 padding: append 0x80, zero fill, and the 64-bit bit length. -/
def sha2Pad (msg : List Nat) : List Nat :=
  msg ++ 128 :: List.replicate ((55 + 64 - msg.length % 64) % 64) 0 ++
    u64BeBytes (8 * msg.length)

/-- Split a byte list into 64-byte chunks (fueled to stay structural). -/
def chunks64 : Nat → List Nat → List (List Nat)
  | 0, _ => []
  | _, [] => []
  | fuel + 1, l => l.take 64 :: chunks64 fuel (l.drop 64)

/-- SHA-256 of a byte list, as a 32-byte list. -/
def sha256 (msg : List Nat) : List Nat :=
  let padded := sha2Pad msg
  let hs := List.foldl sha2Block sha2H0 (chunks64 (padded.length + 1) padded)
  (hs.map u32BeBytes).flatten

/-- Modelled from the spec: the constant `APPLICATION_BUILDER_DOMAIN` of
crates/common/src/constants.rs is not under the embedded sources; spec §3
calls it "a fixed 4-byte application-builder domain-type constant", and the
tabulated domains all begin with these four bytes. -/
def APPLICATION_BUILDER_DOMAIN : List Nat := [0, 0, 0, 1]

/-- Modelled from the spec: `compute_domain` of crates/common/src/signature.rs
is not under the embedded sources.  Spec §3: the domain is derived from
`(genesis_fork_version, domain type, genesis validators root = zero)` via the
standard fork-data-root derivation — hash the fork-version-and-validators-root
structure and take the domain-type prefix concatenated with the first 28 bytes
of that hash.  The fork-data hash-tree-root is SHA-256 of the fork version
right-padded to 32 bytes followed by the 32-byte zero validators root. -/
def compute_domain (chain : Chain) (domainType : List Nat) : List Nat :=
  let forkDataRoot :=
    sha256 (chain.genesis_fork_version ++ List.replicate 28 0 ++
      List.replicate 32 0)
  domainType ++ forkDataRoot.take 28

/-- Embeds `Chain::builder_domain` (types.rs lines 44-52): table lookup for
named chains, generic computation for `Custom`. -/
def Chain.builder_domain : Chain → List Nat
  | .Mainnet => KnownChain.Mainnet.builder_domain
  | .Holesky => KnownChain.Holesky.builder_domain
  | .Helder => KnownChain.Helder.builder_domain
  | .Custom t s fv => compute_domain (.Custom t s fv) APPLICATION_BUILDER_DOMAIN

/-! The file loader (types.rs lines 199-262) and the serde model.  The serde
decode attempts (`serde_json::from_slice`, `serde_yaml::from_slice`) are
external library calls; their outcome on a given file is embedded as a
`FileDecoders` record of the three structural decode results, and the
filesystem as a partial map from paths to such records. -/

/-- Embeds the struct `QuotedSpecFile` (types.rs lines 200-210): quoted-u64
numeric fields and a variable-length hex byte string `genesis_fork_version`. -/
structure QuotedSpecFile where
  min_genesis_time : Nat
  genesis_delay : Nat
  seconds_per_slot : Nat
  genesis_fork_version : List Nat
  deriving DecidableEq, Repr

/-- Embeds `QuotedSpecFile::to_chain` (types.rs lines 212-222): the `[u8; 4]`
try-into fails unless the byte string has exactly 4 bytes; genesis time is the
wrapping u64 sum `min_genesis_time + genesis_delay`. -/
def QuotedSpecFile.to_chain (q : QuotedSpecFile) : Except String Chain :=
  if q.genesis_fork_version.length = 4 then
    .ok (.Custom ((q.min_genesis_time + q.genesis_delay) % 2 ^ 64)
      q.seconds_per_slot q.genesis_fork_version)
  else
    .error "could not convert slice to array"

/-- Embeds the struct `SpecFileJson` (types.rs lines 224-227): the
`data`-wrapped quoted schema. -/
structure SpecFileJson where
  data : QuotedSpecFile
  deriving DecidableEq, Repr

/-- Embeds the struct `SpecFile` (types.rs lines 229-236): native-integer
fields, with `genesis_fork_version` a native u32. -/
structure SpecFile where
  min_genesis_time : Nat
  genesis_delay : Nat
  seconds_per_slot : Nat
  genesis_fork_version : Nat
  deriving DecidableEq, Repr

/-- Embeds `SpecFile::to_chain` (types.rs lines 238-248): the u32 fork version
becomes 4 bytes via `to_be_bytes`; genesis time is the wrapping u64 sum. -/
def SpecFile.to_chain (s : SpecFile) : Chain :=
  .Custom ((s.min_genesis_time + s.genesis_delay) % 2 ^ 64)
    s.seconds_per_slot (u32BeBytes s.genesis_fork_version)

/-- Outcome of the three structural decode attempts on one file's bytes:
`serde_json::from_slice::<SpecFileJson>`, `serde_json::from_slice::<QuotedSpecFile>`
and `serde_yaml::from_slice::<SpecFile>` (types.rs lines 253-257); `none`
means that decode attempt fails on this file. -/
structure FileDecoders where
  specFileJson : Option SpecFileJson
  quotedSpecFile : Option QuotedSpecFile
  specFile : Option SpecFile
  deriving DecidableEq, Repr

/-- Embeds `load_chain_from_file` (types.rs lines 199-262).  `readFile`
embeds `std::fs::read`: `none` is a read failure.  The three schemas are
tried in the source's order; the first successful decode wins and its
`to_chain` result (including its possible failure) is returned. -/
def load_chain_from_file (readFile : String → Option FileDecoders)
    (path : String) : Except String Chain :=
  match readFile path with
  | none => .error ("Unable to find chain spec file: " ++ path)
  | some d =>
    match d.specFileJson with
    | some decoded => decoded.data.to_chain
    | none =>
      match d.quotedSpecFile with
      | some decoded => decoded.to_chain
      | none =>
        match d.specFile with
        | some decoded => .ok decoded.to_chain
        | none =>
          .error ("unable to decode file: " ++ path ++
            ", accepted formats are: json or yml")

/-- Embeds the untagged enum `ChainLoader` (types.rs lines 144-150):
`Known(KnownChain)`, `Path(PathBuf)`, or the inline custom record whose
`genesis_fork_version` is a variable-length `Bytes`. -/
inductive ChainLoader
  | Known (known : KnownChain)
  | Path (path : String)
  | Custom (genesis_time_secs : Nat) (slot_time_secs : Nat)
      (genesis_fork_version : List Nat)
  deriving DecidableEq, Repr

/-- Wire value granularity needed by the serde model: a string, or a map with
exactly the inline custom record's fields. -/
inductive SerializedChain
  | str (s : String)
  | record (genesis_time_secs : Nat) (slot_time_secs : Nat)
      (genesis_fork_version : List Nat)
  deriving DecidableEq, Repr

/-- Embeds serde's deserialization of `KnownChain` from a string (types.rs
lines 82-90): the canonical variant names plus the lower-case aliases. -/
def KnownChain.fromStr : String → Option KnownChain
  | "Mainnet" => some .Mainnet
  | "mainnet" => some .Mainnet
  | "Holesky" => some .Holesky
  | "holesky" => some .Holesky
  | "Helder" => some .Helder
  | "helder" => some .Helder
  | _ => none

/-- Embeds serde's canonical serialization of `KnownChain` to its variant
name (aliases affect only deserialization). -/
def KnownChain.toStr : KnownChain → String
  | .Mainnet => "Mainnet"
  | .Holesky => "Holesky"
  | .Helder => "Helder"

/-- Embeds the untagged deserialization of `ChainLoader` (serde `untagged`,
types.rs line 145): variants are tried in declaration order — `Known` accepts
exactly the known-chain name strings, `Path` accepts any string (every string
is a valid `PathBuf`), and the inline record shape matches only `Custom`. -/
def ChainLoader.fromValue : SerializedChain → ChainLoader
  | .str s =>
    match KnownChain.fromStr s with
    | some k => .Known k
    | none => .Path s
  | .record t sl fv => .Custom t sl fv

/-- Embeds the serialization of `ChainLoader` to the wire: `Known` is the
canonical name string, `Path` the path string, `Custom` the inline record. -/
def ChainLoader.toValue : ChainLoader → SerializedChain
  | .Known k => .str k.toStr
  | .Path p => .str p
  | .Custom t sl fv => .record t sl fv

/-- Embeds `impl Serialize for Chain` (types.rs lines 152-172): build the
`ChainLoader` (never the `Path` variant) and serialize it. -/
def Chain.toLoader : Chain → ChainLoader
  | .Mainnet => .Known .Mainnet
  | .Holesky => .Known .Holesky
  | .Helder => .Known .Helder
  | .Custom t sl fv => .Custom t sl fv

/-- Serialization of `Chain` down to the wire value. -/
def Chain.serialize (c : Chain) : SerializedChain := c.toLoader.toValue

/-- Embeds `impl Deserialize for Chain` (types.rs lines 174-191): deserialize
a `ChainLoader`, then convert — `Known` infallibly, `Path` through the file
loader (its failure is the overall failure), `Custom` through the length-4
check on `genesis_fork_version`. -/
def Chain.deserialize (readFile : String → Option FileDecoders)
    (v : SerializedChain) : Except String Chain :=
  match ChainLoader.fromValue v with
  | .Known known => .ok (Chain.ofKnown known)
  | .Path path => load_chain_from_file readFile path
  | .Custom t sl fv =>
    if fv.length = 4 then .ok (.Custom t sl fv)
    else .error "could not convert slice to array"

/-! The PBS error taxonomy (crates/common/src/pbs/error.rs).  Payload types
owned by external crates (axum, reqwest, serde_json, url, alloy, blst) are
embedded by the observables the code uses: for `reqwest::Error` that is its
timeout flag; the rest are opaque strings or numbers. -/

/-- Embeds the observable of `reqwest::Error` used by this code: the
`is_timeout` flag, plus an opaque message. -/
structure ReqwestError where
  timeoutFlag : Bool
  msg : String
  deriving DecidableEq, Repr

/-- Embeds the enum `ValidationError` (pbs/error.rs lines 39-72); 32-byte
hashes and BLS keys are byte lists, U256 values are Nat. -/
inductive ValidationError
  | EmptyBlockhash
  | PubkeyMismatch (expected : List Nat) (got : List Nat)
  | ParentHashMismatch (expected : List Nat) (got : List Nat)
  | BlockHashMismatch (expected : List Nat) (got : List Nat)
  | KzgCommitments (expected_blobs : Nat) (got_blobs : Nat)
      (got_commitments : Nat) (got_proofs : Nat)
  | KzgMismatch (expected : String) (got : String) (index : Nat)
  | BidTooLow (min : Nat) (got : Nat)
  | EmptyTxRoot
  | Sigverify (err : String)
  deriving DecidableEq, Repr

/-- Embeds the enum `PbsError` (pbs/error.rs lines 9-31). -/
inductive PbsError
  | AxumError (err : String)
  | Reqwest (err : ReqwestError)
  | SerdeDecodeError (err : String)
  | RelayResponse (error_msg : String) (code : Nat)
  | PayloadTooLarge (payload_size : Nat)
  | Validation (err : ValidationError)
  | UrlParsing (err : String)
  deriving DecidableEq, Repr

/-- Embeds `PbsError::is_timeout` (pbs/error.rs lines 33-37):
`matches!(self, PbsError::Reqwest(err) if err.is_timeout())`. -/
def PbsError.is_timeout : PbsError → Bool
  | .Reqwest err => err.timeoutFlag
  | _ => false

/-! Derived predicates and helpers used by the theorems. -/

/-- Property: a loader value is not the `Path` variant. -/
def ChainLoader.notPath : ChainLoader → Prop
  | .Path _ => False
  | _ => True

instance : DecidablePred ChainLoader.notPath := by
  intro l
  cases l <;> simp [ChainLoader.notPath] <;> infer_instance

/-- Recombine a big-endian byte list into a number (most significant first). -/
def beBytesToNat (l : List Nat) : Nat := l.foldl (fun a b => a * 256 + b) 0

/-- C1: for each of the three named variants, `Chain::from(KnownChain::X)`
followed by `builder_domain()` returns exactly the literal 32-byte constant
of `KnownChain::builder_domain`'s table for X. -/
theorem C1_known_builder_domain :
    ∀ k : KnownChain,
      (Chain.ofKnown k).builder_domain = KnownChain.builder_domain k := by
  intro k
  cases k <;> rfl

set_option maxRecDepth 100000 in
/-- C2: for each of the three known chains, computing the builder domain
generically from the chain's genesis fork version and the fixed
application-builder domain type (the computation used for `Chain::Custom`)
yields the same 32 bytes as the tabulated constant. -/
theorem C2_table_matches_computation :
    ∀ k : KnownChain,
      compute_domain (Chain.ofKnown k) APPLICATION_BUILDER_DOMAIN =
        KnownChain.builder_domain k := by
  intro k
  cases k <;> decide

/-- C3: serializing any well-formed `Chain` never produces the file-path
shape (the loader built on the write path is `Known` or `Custom`, never
`Path`), and deserializing the serialized output yields the original chain —
in particular any `Custom` chain round-trips via the inline record. -/
theorem C3_serialize_roundtrip (readFile : String → Option FileDecoders)
    (c : Chain) (h : c.wf) :
    c.toLoader.notPath ∧
      Chain.deserialize readFile c.serialize = Except.ok c := by
  cases c with
  | Custom t sl fv =>
      simp only [Chain.wf] at h
      exact ⟨trivial, by
        simp [Chain.serialize, Chain.toLoader, ChainLoader.toValue,
          Chain.deserialize, ChainLoader.fromValue, h]⟩
  | Mainnet => exact ⟨trivial, rfl⟩
  | Holesky => exact ⟨trivial, rfl⟩
  | Helder => exact ⟨trivial, rfl⟩

/-- Witness for C3 at a concrete custom chain. -/
theorem C3_serialize_roundtrip_witness :
    Chain.wf (Chain.Custom 1 2 [1, 0, 0, 0]) ∧
      ((Chain.Custom 1 2 [1, 0, 0, 0]).toLoader.notPath ∧
        Chain.deserialize (fun _ => none)
            (Chain.Custom 1 2 [1, 0, 0, 0]).serialize =
          Except.ok (Chain.Custom 1 2 [1, 0, 0, 0])) :=
  ⟨by decide, C3_serialize_roundtrip (fun _ => none) _ (by decide)⟩

/-- C4: for inputs accepted by either file schema whose u64 sum does not
overflow, the genesis time of the produced chain is exactly
`min_genesis_time + genesis_delay`, and differs from `min_genesis_time`
whenever the delay is nonzero. -/
theorem C4_genesis_time_is_sum (q : QuotedSpecFile) (s : SpecFile)
    (hq : q.min_genesis_time + q.genesis_delay < 2 ^ 64)
    (hs : s.min_genesis_time + s.genesis_delay < 2 ^ 64) :
    (∀ c, q.to_chain = Except.ok c →
        c.genesis_time_sec = q.min_genesis_time + q.genesis_delay ∧
          (q.genesis_delay ≠ 0 → c.genesis_time_sec ≠ q.min_genesis_time)) ∧
      (s.to_chain.genesis_time_sec = s.min_genesis_time + s.genesis_delay ∧
        (s.genesis_delay ≠ 0 →
          s.to_chain.genesis_time_sec ≠ s.min_genesis_time)) := by
  constructor
  · intro c hc
    by_cases hlen : q.genesis_fork_version.length = 4
    · simp only [QuotedSpecFile.to_chain, hlen, if_true, Except.ok.injEq] at hc
      subst hc
      simp only [Chain.genesis_time_sec, Nat.mod_eq_of_lt hq]
      exact ⟨trivial, fun _ => by omega⟩
    · simp [QuotedSpecFile.to_chain, hlen] at hc
  · simp only [SpecFile.to_chain, Chain.genesis_time_sec,
      Nat.mod_eq_of_lt hs]
    exact ⟨trivial, fun _ => by omega⟩

/-- Witness for C4 at the spec's example `min_genesis_time = 100`,
`genesis_delay = 50`, which must give genesis time 150. -/
theorem C4_genesis_time_is_sum_witness :
    (100 + 50 < 2 ^ 64) ∧
      ((QuotedSpecFile.mk 100 50 12 [0, 0, 0, 0]).to_chain =
          Except.ok (Chain.Custom 150 12 [0, 0, 0, 0]) ∧
        Chain.genesis_time_sec (Chain.Custom 150 12 [0, 0, 0, 0]) = 100 + 50) :=
  ⟨by decide, rfl,
    ((C4_genesis_time_is_sum (QuotedSpecFile.mk 100 50 12 [0, 0, 0, 0])
          (SpecFile.mk 100 50 12 0) (by decide) (by decide)).1
        (Chain.Custom 150 12 [0, 0, 0, 0]) rfl).1⟩

/-- C5: a `genesis_fork_version` byte string of any length other than 4 makes
both the inline-record deserialization of `Chain` and the quoted-decimal file
schema fail with an error; no chain is produced by truncation or padding. -/
theorem C5_fork_version_length_must_be_4
    (readFile : String → Option FileDecoders) (t sl : Nat) (fv : List Nat)
    (q : QuotedSpecFile) (hfv : fv.length ≠ 4)
    (hq : q.genesis_fork_version = fv) :
    Chain.deserialize readFile (SerializedChain.record t sl fv) =
        Except.error "could not convert slice to array" ∧
      q.to_chain = Except.error "could not convert slice to array" := by
  constructor
  · simp [Chain.deserialize, ChainLoader.fromValue, hfv]
  · simp [QuotedSpecFile.to_chain, hq, hfv]

/-- Witness for C5 at a 3-byte fork version. -/
theorem C5_fork_version_length_must_be_4_witness :
    ([0, 0, 0] : List Nat).length ≠ 4 ∧
      (QuotedSpecFile.mk 1 2 3 [0, 0, 0]).genesis_fork_version = [0, 0, 0] ∧
      (Chain.deserialize (fun _ => none)
            (SerializedChain.record 5 6 [0, 0, 0]) =
          Except.error "could not convert slice to array" ∧
        (QuotedSpecFile.mk 1 2 3 [0, 0, 0]).to_chain =
          Except.error "could not convert slice to array") :=
  ⟨by decide, rfl,
    C5_fork_version_length_must_be_4 (fun _ => none) 5 6 [0, 0, 0]
      (QuotedSpecFile.mk 1 2 3 [0, 0, 0]) (by decide) rfl⟩

/-- C6: `load_chain_from_file` tries the data-wrapped quoted JSON schema,
then the bare quoted JSON schema, then the native-integer YAML schema, in
that order, returning the chain of the first schema that decodes; when all
three fail it returns the error naming the path and the accepted formats,
never a default chain. -/
theorem C6_loader_fallback_order (readFile : String → Option FileDecoders)
    (path : String) (d : FileDecoders) (h : readFile path = some d) :
    (∀ j, d.specFileJson = some j →
        load_chain_from_file readFile path = j.data.to_chain) ∧
      (d.specFileJson = none → ∀ q, d.quotedSpecFile = some q →
        load_chain_from_file readFile path = q.to_chain) ∧
      (d.specFileJson = none → d.quotedSpecFile = none →
        ∀ s, d.specFile = some s →
          load_chain_from_file readFile path = Except.ok s.to_chain) ∧
      (d.specFileJson = none → d.quotedSpecFile = none → d.specFile = none →
        load_chain_from_file readFile path =
          Except.error ("unable to decode file: " ++ path ++
            ", accepted formats are: json or yml")) := by
  refine ⟨?_, ?_, ?_, ?_⟩ <;> intros <;> simp_all [load_chain_from_file]

/-- Witness for C6 at a file matching none of the three schemas. -/
theorem C6_loader_fallback_order_witness :
    (fun _ : String => some (FileDecoders.mk none none none)) "spec.json" =
        some (FileDecoders.mk none none none) ∧
      load_chain_from_file (fun _ => some (FileDecoders.mk none none none))
          "spec.json" =
        Except.error ("unable to decode file: " ++ "spec.json" ++
          ", accepted formats are: json or yml") :=
  ⟨rfl,
    (C6_loader_fallback_order (fun _ => some (FileDecoders.mk none none none))
        "spec.json" (FileDecoders.mk none none none) rfl).2.2.2 rfl rfl rfl⟩

/-- C7: the untagged union behind `Chain` deserialization tries known-chain
name, then path, then inline record: a known name yields the known chain; any
other string goes to the file loader, and a loader failure is the overall
deserialization error — never a fallthrough to the inline-record shape. -/
theorem C7_path_failure_is_hard_error
    (readFile : String → Option FileDecoders) (s : String) :
    (∀ k, KnownChain.fromStr s = some k →
        Chain.deserialize readFile (SerializedChain.str s) =
          Except.ok (Chain.ofKnown k)) ∧
      (KnownChain.fromStr s = none →
        Chain.deserialize readFile (SerializedChain.str s) =
          load_chain_from_file readFile s) ∧
      (KnownChain.fromStr s = none → ∀ msg,
        load_chain_from_file readFile s = Except.error msg →
          Chain.deserialize readFile (SerializedChain.str s) =
            Except.error msg) := by
  refine ⟨?_, ?_, ?_⟩
  · intro k hk
    simp [Chain.deserialize, ChainLoader.fromValue, hk]
  · intro hk
    simp [Chain.deserialize, ChainLoader.fromValue, hk]
  · intro hk msg hmsg
    simp [Chain.deserialize, ChainLoader.fromValue, hk, hmsg]

/-- Witness for C7 at a non-name string whose file read fails. -/
theorem C7_path_failure_is_hard_error_witness :
    KnownChain.fromStr "bad.json" = none ∧
      load_chain_from_file (fun _ => none) "bad.json" =
        Except.error ("Unable to find chain spec file: " ++ "bad.json") ∧
      Chain.deserialize (fun _ => none) (SerializedChain.str "bad.json") =
        Except.error ("Unable to find chain spec file: " ++ "bad.json") :=
  ⟨rfl, rfl,
    (C7_path_failure_is_hard_error (fun _ => none) "bad.json").2.2 rfl _ rfl⟩

/-- C8: the YAML schema's native-u32 `genesis_fork_version` becomes the
4-byte array in big-endian order — the bytes of the produced chain recombine
most-significant-first to the original integer — and the native integer
fields pass through (`seconds_per_slot` becomes the slot time). -/
theorem C8_yaml_big_endian (s : SpecFile)
    (h : s.genesis_fork_version < 2 ^ 32) :
    s.to_chain.genesis_fork_version = u32BeBytes s.genesis_fork_version ∧
      (s.to_chain.genesis_fork_version).length = 4 ∧
      beBytesToNat s.to_chain.genesis_fork_version = s.genesis_fork_version ∧
      s.to_chain.slot_time_sec = s.seconds_per_slot := by
  refine ⟨rfl, rfl, ?_, rfl⟩
  simp only [SpecFile.to_chain, Chain.genesis_fork_version, u32BeBytes,
    beBytesToNat, List.foldl, Nat.shiftRight_eq_div_pow]
  omega

/-- Witness for C8 at the Holesky fork version 0x01017000. -/
theorem C8_yaml_big_endian_witness :
    (SpecFile.mk 0 0 12 16871424).genesis_fork_version < 2 ^ 32 ∧
      ((SpecFile.mk 0 0 12 16871424).to_chain.genesis_fork_version =
          u32BeBytes 16871424 ∧
        ((SpecFile.mk 0 0 12 16871424).to_chain.genesis_fork_version).length =
          4 ∧
        beBytesToNat (SpecFile.mk 0 0 12 16871424).to_chain.genesis_fork_version =
          16871424 ∧
        (SpecFile.mk 0 0 12 16871424).to_chain.slot_time_sec = 12) :=
  ⟨by decide, C8_yaml_big_endian (SpecFile.mk 0 0 12 16871424) (by decide)⟩

/-- C9: `PbsError::is_timeout` is true exactly on the `Reqwest` variant whose
wrapped transport error is flagged as a timeout, and false on every other
variant (`AxumError`, `SerdeDecodeError`, `RelayResponse`, `PayloadTooLarge`,
`Validation`, `UrlParsing`). -/
theorem C9_is_timeout_only_reqwest (e : PbsError) :
    e.is_timeout = true ↔
      ∃ r, e = PbsError.Reqwest r ∧ r.timeoutFlag = true := by
  cases e <;> simp [PbsError.is_timeout]

/-- C10: both file schemas use unchecked u64 addition for the genesis time:
any accepted input produces a chain (no parse error) whose genesis time is
the wrapping sum `(min_genesis_time + genesis_delay) mod 2^64`. -/
theorem C10_wrapping_sum (q : QuotedSpecFile) (s : SpecFile)
    (hlen : q.genesis_fork_version.length = 4) :
    (∃ c, q.to_chain = Except.ok c ∧
        c.genesis_time_sec =
          (q.min_genesis_time + q.genesis_delay) % 2 ^ 64) ∧
      s.to_chain.genesis_time_sec =
        (s.min_genesis_time + s.genesis_delay) % 2 ^ 64 := by
  refine ⟨⟨Chain.Custom ((q.min_genesis_time + q.genesis_delay) % 2 ^ 64)
      q.seconds_per_slot q.genesis_fork_version, ?_, rfl⟩, rfl⟩
  simp [QuotedSpecFile.to_chain, hlen]

/-- Witness for C10 at an overflowing sum: min = 2^64 - 1, delay = 2 wraps to
genesis time 1 with no error. -/
theorem C10_wrapping_sum_witness :
    (QuotedSpecFile.mk (2 ^ 64 - 1) 2 12 [0, 0, 0, 0]).genesis_fork_version.length
        = 4 ∧
      ((∃ c, (QuotedSpecFile.mk (2 ^ 64 - 1) 2 12 [0, 0, 0, 0]).to_chain =
            Except.ok c ∧
          c.genesis_time_sec = ((2 ^ 64 - 1) + 2) % 2 ^ 64) ∧
        (SpecFile.mk (2 ^ 64 - 1) 2 12 0).to_chain.genesis_time_sec =
          ((2 ^ 64 - 1) + 2) % 2 ^ 64) :=
  ⟨rfl, C10_wrapping_sum (QuotedSpecFile.mk (2 ^ 64 - 1) 2 12 [0, 0, 0, 0])
    (SpecFile.mk (2 ^ 64 - 1) 2 12 0) rfl⟩
